import Mathlib

/-!
Verification development for the ts-type-diagnostic repository.

The definitions below are a shallow embedding of the two source files:
`src/utils/promptFixes/whenMismatchedOrMissingTypes.ts` (the fix catalog)
and the file containing `startSniffing` / `startFixing` (the diagnostic
sniffing loop, resolution loop, and run-end reporting).  TypeScript
mutation via the `addChoice` and `suggest` callbacks is modelled by
returning the list of emitted choices and suggestions; a TypeScript
runtime exception (dereferencing `undefined`) is modelled by returning
`none`.  Collaborators that live outside the embedded files (the
TypeScript checker, `cacheFile`, `findProblems`, `getClosestTarget`) are
abstracted as function fields of an environment record.  Components of
this repository that are not present under the embedded sources
(`showPromptFixes`, `applyFixes`) are modelled from the specification,
and are marked as such in their doc comments.
-/

/-- Modelled from the spec (section 4.1) and the source's uses: the closed set of
problem kinds assigned by the classifier (`ErrorType` in `src/utils/types.ts`,
which is not among the embedded sources).  `missingIndex` is the
missing-index variant used by the placeholder branch of the catalog;
`misc` stands for any further member of the TypeScript enum that the
embedded code never names. -/
inductive ErrorType where
  | mismatch
  | simpleToObject
  | objectToSimple
  | propMismatch
  | targetPropMissing
  | bothMissing
  | both
  | missingIndex
  | misc
deriving DecidableEq, Repr

/-- Modelled from the spec (section 3) and the source's uses: the closed enum of
edit kinds (`ReplacementType` in `src/utils/types.ts`). -/
inductive ReplacementType where
  | convertType
  | unionType
  | insertProperty
  | insertOptionalProperty
  | makeOptional
deriving DecidableEq, Repr

/-- chalk.green: wraps text in the green SGR escape codes. -/
def chalkGreen (s : String) : String := "\x1b[32m" ++ s ++ "\x1b[39m"

/-- chalk.greenBright. -/
def chalkGreenBright (s : String) : String := "\x1b[92m" ++ s ++ "\x1b[39m"

/-- chalk.magenta. -/
def chalkMagenta (s : String) : String := "\x1b[35m" ++ s ++ "\x1b[39m"

/-- The `placeholderTarget` field carried by a placeholder node info. -/
structure PlaceholderTarget where
  key : String
  typeId : Nat
deriving DecidableEq, Repr

/-- A lightweight node descriptor as read by the catalog code.
`attachedType` models the TypeScript assignment `info.type = cache.getType(...)`
performed on line 71-72 of the catalog source. -/
structure NodeInfo where
  nodeText : String := ""
  typeText : String := ""
  fullText : String := ""
  nodeLink : String := ""
  isFunc : Bool := false
  isPlaceholder : Bool := false
  targetKey : String := ""
  typeId : Nat := 0
  declaredId : Option Nat := none
  attachedType : Option Nat := none
  placeholderTarget : Option PlaceholderTarget := none
deriving DecidableEq, Repr

/-- A declaration handle: `declaration.name ? declaration.name.escapedText : ...`
reads the optional name; `declId` distinguishes declarations. -/
structure Decl where
  name : Option String := none
  declId : Nat := 0
deriving DecidableEq, Repr

/-- The display name of a declaration:
`declaration.name ? declaration.name.escapedText : 'literal'`. -/
def declDisplayName (d : Decl) : String :=
  match d.name with
  | some n => n
  | none => "literal"

/-- The node-cache collaborator as used by the catalog code:
`getTypeOf` models `cache.getType(typeId)` (returning a type handle),
`typeDecls` models `cache.getType(typeId).getSymbol()?.getDeclarations()`
(`none` when the symbol chain yields `undefined`), and `saveNode` models
`cache.saveNode(declaration)`. -/
structure CacheModel where
  getTypeOf : Nat → Nat
  typeDecls : Nat → Option (List Decl)
  saveNode : Decl → Nat

/-- One layer of the comparison stack: the `sourceInfo`/`targetInfo` pair. -/
structure Layer where
  sourceInfo : NodeInfo
  targetInfo : NodeInfo
deriving DecidableEq, Repr

/-- The `reversed` sub-record of a problem. -/
structure ReversedInfo where
  missing : List String
deriving DecidableEq, Repr

/-- A classified problem as read by `addShapeChoice`: the `mismatch` and
`missing` key lists, the optional `reversed` counterpart, and the
`targetInfo` whose `typeId` locates the target declaration. -/
structure Problem where
  mismatch : List String := []
  missing : List String := []
  reversed : Option ReversedInfo := none
  targetInfo : NodeInfo := {}
deriving DecidableEq, Repr

/-- The `context` record destructured by the catalog code.  `sourceMap` is an
association list modelling the JavaScript object (`none` models the field
being `undefined`); `targetMap` likewise maps property keys to node infos. -/
structure ProblemContext where
  captured : Bool := false
  errorType : ErrorType := .misc
  functionName : Option String := none
  sourceMap : Option (List (String × NodeInfo)) := none
  targetMap : List (String × NodeInfo) := []
  placeholderInfo : NodeInfo := {}
  cache : CacheModel

/-- The `whenContext` argument of `whenMismatchedOrMissingTypes`. -/
structure WhenContext where
  problems : List Problem
  context : ProblemContext
  stack : List Layer
  sourceName : String := "source"
  targetName : String := "target"

/-- An edit descriptor as pushed by the catalog: `{ primeInfo, otherInfo, type }`.
A JavaScript `undefined` on either info is modelled by `none`. -/
structure Edit where
  primeInfo : Option NodeInfo
  otherInfo : Option NodeInfo := none
  type : ReplacementType
deriving DecidableEq, Repr

/-- One emitted fix candidate: the bound question, the choice title, and the
edit list passed to `addChoice`. -/
structure Choice where
  question : String
  title : String
  nodeInfos : List Edit
deriving DecidableEq, Repr

/-- The observable output of one catalog invocation: the choices emitted
through `addChoice` and the advisory suggestions emitted through `suggest`,
both in emission order. -/
structure FixOutput where
  choices : List Choice
  suggestions : List (String × String)
deriving DecidableEq, Repr

/-- `didYouMeanThisChildProperty` from the catalog source: when `context.sourceMap`
exists, search its values for a non-function property whose type text equals
the last layer's target type text, and emit a suggestion on a match.
(The caller guarantees a non-empty stack; `stack[stack.length - 1]` is
`getLast?`.) -/
def didYouMeanThisChildProperty (ctx : ProblemContext) (stack : List Layer) :
    List (String × String) :=
  match ctx.sourceMap with
  | none => []
  | some sm =>
    match stack.getLast? with
    | none => []
    | some layer =>
      match (sm.map Prod.snd).find?
          (fun s => !s.isFunc && (s.typeText == layer.targetInfo.typeText)) with
      | some m =>
        let combined := chalkMagenta (layer.sourceInfo.nodeText ++ "." ++ m.nodeText)
        let original := chalkMagenta layer.sourceInfo.nodeText
        [(s!"Did you mean to use this {combined} instead of this {original}",
          layer.targetInfo.nodeLink)]
      | none => []

/-- `addShapeChoice` from the catalog source: pushes a `unionType` edit per key
in `problem.mismatch` (reading `context.sourceMap[key]` / `context.targetMap[key]`;
an `undefined` source map with a non-empty mismatch list throws, modelled as
`none`), a `makeOptional` edit per key in `problem?.reversed?.missing`, and —
when `problem.missing` is non-empty — resolves the target declaration and
pushes an `insertOptionalProperty` edit per key in `problem.missing` whose
prime info is the layer's target info with the saved declaration id attached.
The choice is emitted only when the collected edit list is non-empty. -/
def addShapeChoice (title question : String) (w : WhenContext) : Option FixOutput :=
  match w.problems with
  | [] => none
  | problem :: _ =>
    match w.stack with
    | [] => none
    | layer :: _ =>
      let ctx := w.context
      let suggestions := didYouMeanThisChildProperty ctx w.stack
      let mismatchEdits :=
        match problem.mismatch, ctx.sourceMap with
        | [], _ => some []
        | _ :: _, none => none
        | keys, some sm =>
          some (keys.map fun key =>
            ({ primeInfo := sm.lookup key, otherInfo := ctx.targetMap.lookup key,
               type := .unionType } : Edit))
      match mismatchEdits with
      | none => none
      | some mEdits =>
        let optionalEdits :=
          match problem.reversed with
          | none => []
          | some rev =>
            rev.missing.map fun key =>
              ({ primeInfo := ctx.targetMap.lookup key, type := .makeOptional } : Edit)
        if problem.missing.isEmpty then
          let nodeInfos := mEdits ++ optionalEdits
          some ⟨if nodeInfos.isEmpty then [] else [⟨question, title, nodeInfos⟩],
                suggestions⟩
        else
          match ctx.cache.typeDecls problem.targetInfo.typeId with
          | none => none
          | some decls =>
            match decls.head? with
            | none => none
            | some declaration =>
              match ctx.sourceMap with
              | none => none
              | some sm =>
                let targetInfo2 :=
                  { layer.targetInfo with
                    declaredId := some (ctx.cache.saveNode declaration) }
                let insertEdits := problem.missing.map fun key =>
                  ({ primeInfo := some targetInfo2, otherInfo := sm.lookup key,
                     type := .insertOptionalProperty } : Edit)
                let nodeInfos := mEdits ++ optionalEdits ++ insertEdits
                some ⟨if nodeInfos.isEmpty then [] else [⟨question, title, nodeInfos⟩],
                      suggestions⟩

/-- `whenMismatchedOrMissingTypes` from the catalog source, case by case in the
source's `switch (true)` order: simple mismatch, the two scalar/object
confusion kinds, the placeholder branch, then the four shape kinds routed
through `addShapeChoice`.  Returns the emitted choices and suggestions;
`none` models a thrown TypeScript exception. -/
def whenMismatchedOrMissingTypes (w : WhenContext) : Option FixOutput :=
  if w.context.captured || w.problems.isEmpty then some ⟨[], []⟩
  else
    match w.stack with
    | [] => none
    | layer :: _ =>
      let sourceInfo := layer.sourceInfo
      let targetInfo := layer.targetInfo
      let ctx := w.context
      let sourceName := w.sourceName
      let targetName := w.targetName
      if ctx.errorType = .mismatch then
        let suffix :=
          match ctx.functionName with
          | some fn => s!" in function {fn}()"
          | none => ""
        let source := chalkGreen sourceInfo.nodeText
        let target := chalkGreen targetInfo.nodeText
        let question :=
          s!"Fix {targetName} {target} type !== {sourceName} {source} type{suffix}?"
        some ⟨[⟨question, s!"Convert {sourceName} {source} type",
                [{ primeInfo := some sourceInfo, otherInfo := some targetInfo,
                   type := .convertType }]⟩,
              ⟨question, s!"Union {targetName} {target} type",
                [{ primeInfo := some targetInfo, otherInfo := some sourceInfo,
                   type := .unionType }]⟩], []⟩
      else if ctx.errorType = .simpleToObject then
        some ⟨[],
          match ctx.functionName with
          | none => [("Did you mean to use an object", sourceInfo.nodeLink)]
          | some _ => []⟩
      else if ctx.errorType = .objectToSimple then
        some ⟨[],
          match ctx.functionName with
          | none =>
            let full := chalkGreenBright sourceInfo.fullText
            [(s!"Did you mean to assign just one property of {full}",
              sourceInfo.nodeLink)]
          | some _ => []⟩
      else if sourceInfo.isPlaceholder then
        let placeholderInfo := ctx.placeholderInfo
        let targetKey :=
          match placeholderInfo.placeholderTarget with
          | some pt => pt.key
          | none => sourceInfo.targetKey
        match ctx.targetMap.lookup targetKey with
        | some placeholderTargetInfo =>
          let source := chalkGreen placeholderInfo.nodeText
          let target := chalkGreen placeholderTargetInfo.nodeText
          let pInfo :=
            { placeholderInfo with
              attachedType := some (ctx.cache.getTypeOf placeholderInfo.typeId) }
          let ptInfo :=
            { placeholderTargetInfo with
              attachedType := some (ctx.cache.getTypeOf placeholderTargetInfo.typeId) }
          let question := s!"Fix {targetName} {target} type !== {sourceName} {source}?"
          some ⟨[⟨question, s!"Convert {sourceName} {source} type",
                  [{ primeInfo := some pInfo, otherInfo := some ptInfo,
                     type := .convertType }]⟩,
                ⟨question, s!"Union {targetName} {target} type",
                  [{ primeInfo := some ptInfo, otherInfo := some pInfo,
                     type := .unionType }]⟩], []⟩
        | none =>
          match placeholderInfo.placeholderTarget with
          | none => none
          | some pt =>
            match ctx.cache.typeDecls pt.typeId with
            | none => none
            | some decls =>
              match decls.head? with
              | none => none
              | some declaration =>
                let target := chalkGreen (declDisplayName declaration)
                let targetInfo2 :=
                  { targetInfo with
                    declaredId := some (ctx.cache.saveNode declaration) }
                if ctx.errorType = .missingIndex then
                  some ⟨[⟨"Fix missing property?", s!"Add this index to {target} map",
                          [{ primeInfo := some targetInfo2,
                             otherInfo := some placeholderInfo,
                             type := .insertProperty }]⟩], []⟩
                else
                  some ⟨[⟨"Fix missing property?",
                          s!"Add optional property to {targetName} {target} type",
                          [{ primeInfo := some targetInfo2,
                             otherInfo := some placeholderInfo,
                             type := .insertOptionalProperty }]⟩], []⟩
      else if ctx.errorType = .propMismatch then
        addShapeChoice "Union property types" "Fix mismatched property types?" w
      else if ctx.errorType = .targetPropMissing then
        addShapeChoice s!"Add properties as optional to {targetName}"
          "Fix missing properties?" w
      else if ctx.errorType = .bothMissing then
        addShapeChoice s!"Add or convert properties in {targetName} to optional "
          "Fix missing properties??" w
      else if ctx.errorType = .both then
        addShapeChoice "Union property types and add properties as optional"
          "Fix missing and mismatched properties?" w
      else some ⟨[], []⟩

/-- A resolved edit: the concrete `(startOffset, endOffset, replacementText)`
triple of the spec's Patch Engine (section 4.5), computed against the original
text of the file. -/
structure Triple where
  startPos : Nat
  endPos : Nat
  newText : List Char
deriving DecidableEq, Repr

/-- Ordering of triples by ascending start offset. -/
def tripleLe (a b : Triple) : Prop := a.startPos ≤ b.startPos

/-- Strict ordering of triples by start offset. -/
def tripleLt (a b : Triple) : Prop := a.startPos < b.startPos

/-- Two resolved edits are non-overlapping when one's range ends at or before
the other's range begins and their start offsets differ.  (Two insertions at
the same offset compete for the same slot — per the spec, overlap means two
fixes touched the same text — so they do not count as non-overlapping.) -/
def tripleDisjoint (a b : Triple) : Prop :=
  (a.endPos ≤ b.startPos ∧ a.startPos < b.startPos) ∨
  (b.endPos ≤ a.startPos ∧ b.startPos < a.startPos)

instance : DecidableRel tripleLe :=
  fun a b => inferInstanceAs (Decidable (a.startPos ≤ b.startPos))

instance : IsTotal Triple tripleLe := ⟨fun a b => Nat.le_total a.startPos b.startPos⟩

instance : IsTrans Triple tripleLe := ⟨fun _ _ _ => Nat.le_trans⟩

instance : IsAntisymm Triple tripleLt :=
  ⟨fun _ _ h1 h2 => absurd h1 (Nat.lt_asymm h2)⟩

instance (a b : Triple) : Decidable (tripleDisjoint a b) :=
  inferInstanceAs (Decidable (_ ∨ _))

/-- Modelled from the spec (section 4.5): sort the resolved triples by ascending
start offset. -/
def sortTriples (l : List Triple) : List Triple := List.insertionSort tripleLe l

/-- Modelled from the spec (section 4.5): walking the sorted triples, a triple
whose range intersects the previously kept triple's range is dropped. -/
def dropOverlaps : List Triple → List Triple
  | [] => []
  | [t] => [t]
  | t :: u :: rest =>
    if u.startPos < t.endPos then dropOverlaps (t :: rest)
    else t :: dropOverlaps (u :: rest)
termination_by l => l.length

/-- Modelled from the spec (section 4.5): the single left-to-right pass with an
offset delta; each triple's stored range is taken against the original text
while the delta compensates the write position. -/
def applyPass : List Char → Int → List Triple → List Char
  | text, _, [] => text
  | text, delta, t :: rest =>
    let s := (Int.ofNat t.startPos + delta).toNat
    let e := (Int.ofNat t.endPos + delta).toNat
    let text2 := text.take s ++ t.newText ++ text.drop e
    applyPass text2
      (delta + Int.ofNat t.newText.length -
        (Int.ofNat t.endPos - Int.ofNat t.startPos)) rest

/-- Modelled from the spec (section 4.5): the Patch Engine per file — sort,
drop overlaps, apply in one pass. -/
def applyEdits (text : List Char) (edits : List Triple) : List Char :=
  applyPass text 0 (dropOverlaps (sortTriples edits))

/-- A semantic diagnostic as destructured by `startFixing`:
`{ code: errorCode, file, start }`, with `file` and `start` possibly absent
(`if (start)` also rejects offset 0). -/
structure Diagnostic where
  code : Nat
  file : Option String
  start : Option Nat
deriving DecidableEq, Repr

/-- `ignoreTheseErrors` from the sniffing source: error codes skipped outright. -/
def ignoreTheseErrors : List Nat := [6133, 2304, 2448, 2454]

/-- The collaborators of the sniffing loop, abstracted as functions:
`startToNode` models `cacheFile(file).startToNode[start]` (a node handle);
`closestTargetStart` models `getClosestTarget(checker, errorNode).getStart()`;
`targetKindName` models `ts.SyntaxKind[closestTargetNode.kind]`;
`nodeLink` models `getNodeLink(closestTargetNode)`;
`findProblems` models the classifier collaborator, returning the list of
problem batches (abstract tokens) for a diagnostic;
`fileText` models the cached file text used by the patch phase. -/
structure HoundEnv where
  fileNames : List String
  fileText : String → List Char
  startToNode : String → Nat → Option Nat
  closestTargetStart : String → Nat → Nat
  targetKindName : String → Nat → String
  nodeLink : String → Nat → String
  findProblems : Nat → String → Nat → List Nat

/-- The mutable state threaded through `startFixing`'s diagnostic loop. -/
structure SniffState where
  cachedFiles : List String
  processedNodes : List Nat
  allProblems : List Nat
  missingSupport : List String
  hadProblem : Bool
  anyProblem : Bool
deriving DecidableEq, Repr

/-- The initial sniffing state. -/
def initSniffState : SniffState := ⟨[], [], [], [], false, false⟩

/-- The first missing-support message pushed for an unsupported diagnostic. -/
def supportMsg (code : Nat) (kindName : String) (problemBeg : Nat) : String :=
  s!"For error {code}, missing support {kindName} {problemBeg}"

/-- One iteration of `startFixing`'s loop over `semanticDiagnostics`, translated
branch by branch: the file filter and cache fill, the `if (start)` guard, the
node lookup, the ignored-code check, the processed-offset dedup (a single set
keyed by the closest target's start offset), the classification call, and the
`hadProblem` / `anyProblem` bookkeeping. -/
def sniffStep (env : HoundEnv) (st : SniffState) (d : Diagnostic) : SniffState :=
  match d.file with
  | none => st
  | some fileName =>
    if fileName ∈ env.fileNames then
      let st1 :=
        { st with cachedFiles :=
            if fileName ∈ st.cachedFiles then st.cachedFiles
            else st.cachedFiles ++ [fileName] }
      match d.start with
      | none => st1
      | some s =>
        if s = 0 then st1
        else
          match env.startToNode fileName s with
          | none => st1
          | some errorNode =>
            if d.code ∈ ignoreTheseErrors then
              { st1 with anyProblem := st1.anyProblem || st1.hadProblem }
            else
              let problemBeg := env.closestTargetStart fileName errorNode
              let st2 := { st1 with hadProblem := false }
              let st3 :=
                if problemBeg ∈ st2.processedNodes then st2
                else
                  let problems := env.findProblems d.code fileName errorNode
                  if problems.isEmpty then
                    { st2 with missingSupport := st2.missingSupport ++
                        [supportMsg d.code (env.targetKindName fileName errorNode)
                           problemBeg,
                         env.nodeLink fileName errorNode ++ "\n"] }
                  else
                    { st2 with
                      allProblems := st2.allProblems ++ problems,
                      processedNodes := st2.processedNodes ++ [problemBeg],
                      hadProblem := true }
              { st3 with anyProblem := st3.anyProblem || st3.hadProblem }
    else st

/-- The whole diagnostic loop of `startFixing`. -/
def sniffFold (env : HoundEnv) (diags : List Diagnostic) : SniffState :=
  diags.foldl (sniffStep env) initSniffState

/-- One user decision per presented problem.  Modelled from the spec
(section 4.4): `showPromptFixes` is not among the embedded sources; on a
selection the chosen candidate's edits (each a file name with its resolved
triple) are appended to the pending-edit lists. -/
inductive Outcome where
  | selected (edits : List (String × Triple))
  | skipped
  | quit
deriving DecidableEq, Repr

/-- Modelled from the spec (section 4.4) together with the embedded loop of
`startFixing`: walk the problem batches consuming one decision each,
accumulating selected edits in order, stopping at the first `quit` (the
embedded loop does `if (anyQuit) break`).  Returns the accumulated pending
edits and whether the run was quit. -/
def resolutionLoop : Nat → List Outcome → List (String × Triple) × Bool
  | 0, _ => ([], false)
  | _ + 1, [] => ([], false)
  | n + 1, o :: os =>
    match o with
    | .quit => ([], true)
    | .skipped => resolutionLoop n os
    | .selected es =>
      let r := resolutionLoop n os
      (es ++ r.1, r.2)

/-- Modelled from the spec (sections 4.5 and 6): `applyFixes` (not among the
embedded sources) applies each file's pending edits to that file's cached
text with the Patch Engine and hands the patched buffers back for
persistence. -/
def applyFixesSpec (fileText : String → List Char)
    (pending : List (String × Triple)) : List (String × List Char) :=
  ((pending.map Prod.fst).eraseDups).map fun f =>
    (f, applyEdits (fileText f)
      (pending.filterMap fun p => if p.1 = f then some p.2 else none))

/-- What a finished run produces: the persisted patched buffers (`none` when
nothing was written back) and the missing-support lines printed at run end. -/
structure RunResult where
  persisted : Option (List (String × List Char))
  reported : List String
deriving DecidableEq, Repr

/-- The tail of `startFixing` translated from the source: run the diagnostic
loop, then the problem loop (breaking on quit), then `if (anyQuit) return` —
which skips both `applyFixes` and the missing-support report — otherwise
apply fixes when any problem was found and print the missing-support list. -/
def startFixingRun (env : HoundEnv) (diags : List Diagnostic)
    (outs : List Outcome) : RunResult :=
  let st := sniffFold env diags
  let lr := resolutionLoop st.allProblems.length outs
  if lr.2 then ⟨none, []⟩
  else
    ⟨if st.anyProblem then some (applyFixesSpec env.fileText lr.1) else none,
     st.missingSupport⟩

/-- Modelled from the spec (section 4.1): the classifier (`findProblems`, not
among the embedded sources) assigns `propMismatch` exactly when one or more
shared properties conflict and neither side has missing properties — the
missing-property combinations are classified `targetPropMissing`,
`bothMissing` or `both` instead. -/
def classifiedPropMismatch (p : Problem) : Prop :=
  p.mismatch ≠ [] ∧ p.missing = [] ∧ ∀ r, p.reversed = some r → r.missing = []

/-- Modelled from the spec (sections 4.1 and 4.3): the classifier assigns
`bothMissing` when the target is missing required source properties and the
source is missing target-required properties, with no shared-property type
conflicts (those go to `propMismatch` or `both`); the comparator always
fills in the `reversed` counterpart. -/
def classifiedBothMissing (p : Problem) : Prop :=
  p.mismatch = [] ∧ p.missing ≠ [] ∧ p.reversed ≠ none

/-- Modelled from the spec (sections 4.1 and 4.3): a placeholder problem's kind
is never one of the kinds the catalog dispatches before its placeholder
branch — the spec's catalog table routes placeholder problems through the
placeholder rows. -/
def placeholderKindCompatible (e : ErrorType) : Prop :=
  e ≠ .mismatch ∧ e ≠ .simpleToObject ∧ e ≠ .objectToSimple

/-- A cache collaborator fixture for concrete runs of the catalog. -/
def cacheDummy : CacheModel :=
  ⟨fun t => t + 100, fun t => some [⟨some "Target", t⟩], fun d => d.declId + 1000⟩

/-- A source node fixture. -/
def srcNodeA : NodeInfo := { nodeText := "a", typeText := "number", nodeLink := "file.ts:1" }

/-- A target node fixture. -/
def tgtNodeA : NodeInfo := { nodeText := "b", typeText := "string", nodeLink := "file.ts:2" }

/-- A concrete catalog context classified as a simple mismatch. -/
def wMismatchA : WhenContext :=
  { problems := [{}],
    context := { captured := false, errorType := .mismatch, cache := cacheDummy },
    stack := [⟨srcNodeA, tgtNodeA⟩] }

/-- A concrete catalog context classified `simpleToObject` inside a function:
the source's `if (!functionName)` guard suppresses the suggestion here. -/
def wSimpleToObjectInFn : WhenContext :=
  { problems := [{}],
    context := { captured := false, errorType := .simpleToObject,
                 functionName := some "f", cache := cacheDummy },
    stack := [⟨srcNodeA, tgtNodeA⟩] }

/-- A concrete catalog context classified `simpleToObject` with no enclosing
function name. -/
def wSimpleToObjectTop : WhenContext :=
  { problems := [{}],
    context := { captured := false, errorType := .simpleToObject,
                 functionName := none, cache := cacheDummy },
    stack := [⟨srcNodeA, tgtNodeA⟩] }

/-- An environment fixture for the sniffing loop. -/
def envDummy : HoundEnv :=
  { fileNames := ["a.ts"],
    fileText := fun _ => [],
    startToNode := fun _ s => some s,
    closestTargetStart := fun _ n => n,
    targetKindName := fun _ _ => "Identifier",
    nodeLink := fun f _ => f,
    findProblems := fun _ _ n => [n] }

/-- C5: for a Problem classified `mismatch`, the catalog emits exactly two
candidates in order — first a single `convertType` edit from the source node
onto the target node, then a single `unionType` edit from the target node
onto the source node. -/
theorem c5_mismatch_two_candidates (w : WhenContext) (p : Problem)
    (ps : List Problem) (layer : Layer) (rest : List Layer)
    (hcap : w.context.captured = false)
    (hp : w.problems = p :: ps)
    (hs : w.stack = layer :: rest)
    (he : w.context.errorType = .mismatch) :
    ∃ c1 c2, whenMismatchedOrMissingTypes w = some ⟨[c1, c2], []⟩ ∧
      c1.nodeInfos = [{ primeInfo := some layer.sourceInfo,
                        otherInfo := some layer.targetInfo,
                        type := .convertType }] ∧
      c2.nodeInfos = [{ primeInfo := some layer.targetInfo,
                        otherInfo := some layer.sourceInfo,
                        type := .unionType }] := by
  obtain ⟨probs, ctx, stk, sn, tn⟩ := w
  obtain ⟨cap, et, fn, sm, tm, ph, cache⟩ := ctx
  simp only at hcap hp hs he
  subst hcap hp hs he
  exact ⟨_, _, rfl, rfl, rfl⟩

/-- Witness for C5 at a concrete mismatch context. -/
theorem c5_mismatch_two_candidates_witness :
    wMismatchA.context.errorType = .mismatch ∧
    ∃ c1 c2, whenMismatchedOrMissingTypes wMismatchA = some ⟨[c1, c2], []⟩ ∧
      c1.nodeInfos = [{ primeInfo := some srcNodeA, otherInfo := some tgtNodeA,
                        type := .convertType }] ∧
      c2.nodeInfos = [{ primeInfo := some tgtNodeA, otherInfo := some srcNodeA,
                        type := .unionType }] :=
  ⟨rfl, c5_mismatch_two_candidates wMismatchA {} [] ⟨srcNodeA, tgtNodeA⟩ []
    rfl rfl rfl rfl⟩

/-- C7 counterexample: a `simpleToObject` problem inside a function emits no
suggestion at all (and no candidate) — the advisory is not unconditional. -/
theorem c7_suggestion_gated_counterexample :
    wSimpleToObjectInFn.context.functionName = some "f" ∧
    whenMismatchedOrMissingTypes wSimpleToObjectInFn = some ⟨[], []⟩ :=
  ⟨rfl, rfl⟩

/-- C7 amended: for a Problem classified `simpleToObject` or `objectToSimple`
the catalog never emits a candidate, and it emits the advisory suggestion
exactly when the Problem has no enclosing function name. -/
theorem c7_advisory_no_edits (w : WhenContext) (p : Problem)
    (ps : List Problem) (layer : Layer) (rest : List Layer)
    (hcap : w.context.captured = false)
    (hp : w.problems = p :: ps)
    (hs : w.stack = layer :: rest)
    (he : w.context.errorType = .simpleToObject ∨
          w.context.errorType = .objectToSimple) :
    ∃ out, whenMismatchedOrMissingTypes w = some out ∧ out.choices = [] ∧
      ((w.context.functionName = none ∧ out.suggestions.length = 1) ∨
       (w.context.functionName ≠ none ∧ out.suggestions = [])) := by
  obtain ⟨probs, ctx, stk, sn, tn⟩ := w
  obtain ⟨cap, et, fn, sm, tm, ph, cache⟩ := ctx
  simp only at hcap hp hs he
  subst hcap hp hs
  rcases he with he | he
  · subst he
    cases fn with
    | none => exact ⟨_, rfl, rfl, Or.inl ⟨rfl, rfl⟩⟩
    | some f => exact ⟨_, rfl, rfl, Or.inr ⟨by simp, rfl⟩⟩
  · subst he
    cases fn with
    | none => exact ⟨_, rfl, rfl, Or.inl ⟨rfl, rfl⟩⟩
    | some f => exact ⟨_, rfl, rfl, Or.inr ⟨by simp, rfl⟩⟩

/-- Witness for C7 at a concrete top-level `simpleToObject` context. -/
theorem c7_advisory_no_edits_witness :
    wSimpleToObjectTop.context.errorType = .simpleToObject ∧
    ∃ out, whenMismatchedOrMissingTypes wSimpleToObjectTop = some out ∧
      out.choices = [] ∧
      ((wSimpleToObjectTop.context.functionName = none ∧
        out.suggestions.length = 1) ∨
       (wSimpleToObjectTop.context.functionName ≠ none ∧
        out.suggestions = [])) :=
  ⟨rfl, c7_advisory_no_edits wSimpleToObjectTop {} [] ⟨srcNodeA, tgtNodeA⟩ []
    rfl rfl rfl (Or.inl rfl)⟩

/-- C10: a diagnostic whose code is in `ignoreTheseErrors` contributes no
problem, no missing-support entry, and no processed offset — the sniffing
step leaves all three untouched. -/
theorem c10_ignored_codes_skipped (env : HoundEnv) (st : SniffState)
    (d : Diagnostic) (h : d.code ∈ ignoreTheseErrors) :
    (sniffStep env st d).allProblems = st.allProblems ∧
    (sniffStep env st d).missingSupport = st.missingSupport ∧
    (sniffStep env st d).processedNodes = st.processedNodes := by
  obtain ⟨code, file, start⟩ := d
  simp only at h
  unfold sniffStep
  cases file with
  | none => exact ⟨rfl, rfl, rfl⟩
  | some fileName =>
    simp only
    split
    · cases start with
      | none => exact ⟨rfl, rfl, rfl⟩
      | some s =>
        simp only
        split
        · exact ⟨rfl, rfl, rfl⟩
        · cases henv : env.startToNode fileName s with
          | none => simp [henv]
          | some errorNode => simp [henv, h]
    · exact ⟨rfl, rfl, rfl⟩

/-- Witness for C10: code 6133 at a concrete state is skipped entirely. -/
theorem c10_ignored_codes_skipped_witness :
    (6133 : Nat) ∈ ignoreTheseErrors ∧
    (sniffStep envDummy initSniffState ⟨6133, some "a.ts", some 4⟩).allProblems
      = initSniffState.allProblems ∧
    (sniffStep envDummy initSniffState ⟨6133, some "a.ts", some 4⟩).missingSupport
      = initSniffState.missingSupport ∧
    (sniffStep envDummy initSniffState ⟨6133, some "a.ts", some 4⟩).processedNodes
      = initSniffState.processedNodes :=
  ⟨by decide,
   c10_ignored_codes_skipped envDummy initSniffState ⟨6133, some "a.ts", some 4⟩
     (by decide)⟩

/-- Modelled from the spec (sections 4.1 and 4.3): shape-kind problems concern
concrete object shapes — their layer's source node is not a synthetic
placeholder; placeholder problems are routed through the catalog's
placeholder rows instead. -/
def shapeKindNonPlaceholder (layer : Layer) : Prop :=
  layer.sourceInfo.isPlaceholder = false

/-- C2: for a Problem classified `propMismatch`, the catalog emits a single
candidate whose edit list is exactly one `unionType` edit per key of
`problem.mismatch` — no edit of any other kind and no other key. -/
theorem c2_propMismatch_edits (w : WhenContext) (p : Problem)
    (ps : List Problem) (layer : Layer) (rest : List Layer)
    (sm : List (String × NodeInfo))
    (hcap : w.context.captured = false)
    (hp : w.problems = p :: ps)
    (hs : w.stack = layer :: rest)
    (he : w.context.errorType = .propMismatch)
    (hsm : w.context.sourceMap = some sm)
    (hpl : shapeKindNonPlaceholder layer)
    (hc : classifiedPropMismatch p) :
    ∃ c, whenMismatchedOrMissingTypes w =
        some ⟨[c], didYouMeanThisChildProperty w.context w.stack⟩ ∧
      c.nodeInfos = p.mismatch.map fun key =>
        { primeInfo := sm.lookup key, otherInfo := w.context.targetMap.lookup key,
          type := .unionType } := by
  obtain ⟨probs, ctx, stk, sn, tn⟩ := w
  obtain ⟨cap, et, fn, sm0, tm, ph, cache⟩ := ctx
  simp only at hcap hp hs he hsm
  subst hcap hp hs he hsm
  obtain ⟨hne, hmiss, hrev⟩ := hc
  obtain ⟨k, ks, hmk⟩ := List.exists_cons_of_ne_nil hne
  unfold shapeKindNonPlaceholder at hpl
  refine ⟨⟨"Fix mismatched property types?", "Union property types",
    p.mismatch.map fun key =>
      { primeInfo := sm.lookup key, otherInfo := tm.lookup key,
        type := .unionType }⟩, ?_, rfl⟩
  cases hr : p.reversed with
  | none =>
    simp [whenMismatchedOrMissingTypes, addShapeChoice, hpl, hmk, hmiss, hr]
  | some r =>
    have hrm : r.missing = [] := hrev r hr
    simp [whenMismatchedOrMissingTypes, addShapeChoice, hpl, hmk, hmiss, hr, hrm]

/-- A propMismatch problem fixture: property `a` conflicts, nothing missing. -/
def pPropMismatch : Problem := { mismatch := ["a"], missing := [], reversed := some ⟨[]⟩ }

/-- The source shape fixture for the propMismatch scenario. -/
def smShape : List (String × NodeInfo) := [("a", { nodeText := "a", typeText := "number" })]

/-- The target shape fixture for the propMismatch scenario. -/
def tmShape : List (String × NodeInfo) := [("a", { nodeText := "a", typeText := "string" })]

/-- A concrete catalog context classified `propMismatch`. -/
def wPropMismatch : WhenContext :=
  { problems := [pPropMismatch],
    context := { captured := false, errorType := .propMismatch,
                 sourceMap := some smShape, targetMap := tmShape,
                 cache := cacheDummy },
    stack := [⟨srcNodeA, tgtNodeA⟩] }

/-- Witness for C2 at the concrete propMismatch context. -/
theorem c2_propMismatch_edits_witness :
    classifiedPropMismatch pPropMismatch ∧
    ∃ c, whenMismatchedOrMissingTypes wPropMismatch =
        some ⟨[c], didYouMeanThisChildProperty wPropMismatch.context
                     wPropMismatch.stack⟩ ∧
      c.nodeInfos = pPropMismatch.mismatch.map fun key =>
        { primeInfo := smShape.lookup key,
          otherInfo := wPropMismatch.context.targetMap.lookup key,
          type := .unionType } :=
  ⟨by simp [classifiedPropMismatch, pPropMismatch],
   c2_propMismatch_edits wPropMismatch pPropMismatch [] ⟨srcNodeA, tgtNodeA⟩ []
     smShape rfl rfl rfl rfl rfl rfl
     (by simp [classifiedPropMismatch, pPropMismatch])⟩

/-- C6: for a Problem classified `bothMissing`, the catalog emits a single
candidate whose edit list is exactly one `makeOptional` edit per key of
`problem.reversed.missing` followed by one `insertOptionalProperty` edit per
key of `problem.missing` (the prime info of the latter being the target info
with the resolved declaration attached). -/
theorem c6_bothMissing_edits (w : WhenContext) (p : Problem)
    (ps : List Problem) (layer : Layer) (rest : List Layer)
    (sm : List (String × NodeInfo)) (r : ReversedInfo)
    (d : Decl) (ds : List Decl)
    (hcap : w.context.captured = false)
    (hp : w.problems = p :: ps)
    (hs : w.stack = layer :: rest)
    (he : w.context.errorType = .bothMissing)
    (hsm : w.context.sourceMap = some sm)
    (hpl : shapeKindNonPlaceholder layer)
    (hc : classifiedBothMissing p)
    (hr : p.reversed = some r)
    (hdecl : w.context.cache.typeDecls p.targetInfo.typeId = some (d :: ds)) :
    ∃ c, whenMismatchedOrMissingTypes w =
        some ⟨[c], didYouMeanThisChildProperty w.context w.stack⟩ ∧
      c.nodeInfos =
        (r.missing.map fun key =>
          { primeInfo := w.context.targetMap.lookup key,
            type := .makeOptional }) ++
        (p.missing.map fun key =>
          { primeInfo := some { layer.targetInfo with
              declaredId := some (w.context.cache.saveNode d) },
            otherInfo := sm.lookup key,
            type := .insertOptionalProperty }) := by
  obtain ⟨probs, ctx, stk, sn, tn⟩ := w
  obtain ⟨cap, et, fn, sm0, tm, ph, cache⟩ := ctx
  simp only at hcap hp hs he hsm hdecl
  subst hcap hp hs he hsm
  obtain ⟨hmm, hmne, _⟩ := hc
  obtain ⟨k, ks, hmk⟩ := List.exists_cons_of_ne_nil hmne
  unfold shapeKindNonPlaceholder at hpl
  refine ⟨⟨"Fix missing properties??",
    s!"Add or convert properties in {tn} to optional ",
    (r.missing.map fun key =>
      ({ primeInfo := tm.lookup key, type := .makeOptional } : Edit)) ++
    (p.missing.map fun key =>
      ({ primeInfo := some { layer.targetInfo with
           declaredId := some (cache.saveNode d) },
         otherInfo := sm.lookup key,
         type := .insertOptionalProperty } : Edit))⟩, ?_, rfl⟩
  simp [whenMismatchedOrMissingTypes, addShapeChoice, hpl, hmm, hmk, hr, hdecl]

/-- A bothMissing problem fixture: source-only key `b`, target-only key `c`. -/
def pBothMissing : Problem :=
  { mismatch := [], missing := ["b"], reversed := some ⟨["c"]⟩,
    targetInfo := { typeId := 7 } }

/-- The source shape fixture for the bothMissing scenario. -/
def smBoth : List (String × NodeInfo) := [("b", { nodeText := "b", typeText := "number" })]

/-- The target shape fixture for the bothMissing scenario. -/
def tmBoth : List (String × NodeInfo) := [("c", { nodeText := "c", typeText := "boolean" })]

/-- A concrete catalog context classified `bothMissing`. -/
def wBothMissing : WhenContext :=
  { problems := [pBothMissing],
    context := { captured := false, errorType := .bothMissing,
                 sourceMap := some smBoth, targetMap := tmBoth,
                 cache := cacheDummy },
    stack := [⟨srcNodeA, tgtNodeA⟩] }

/-- Witness for C6 at the concrete bothMissing context. -/
theorem c6_bothMissing_edits_witness :
    classifiedBothMissing pBothMissing ∧
    ∃ c, whenMismatchedOrMissingTypes wBothMissing =
        some ⟨[c], didYouMeanThisChildProperty wBothMissing.context
                     wBothMissing.stack⟩ ∧
      c.nodeInfos =
        ((["c"] : List String).map fun key =>
          { primeInfo := wBothMissing.context.targetMap.lookup key,
            type := .makeOptional }) ++
        (pBothMissing.missing.map fun key =>
          { primeInfo := some { tgtNodeA with
              declaredId := some (wBothMissing.context.cache.saveNode
                ⟨some "Target", 7⟩) },
            otherInfo := smBoth.lookup key,
            type := .insertOptionalProperty }) :=
  ⟨by simp [classifiedBothMissing, pBothMissing],
   c6_bothMissing_edits wBothMissing pBothMissing [] ⟨srcNodeA, tgtNodeA⟩ []
     smBoth ⟨["c"]⟩ ⟨some "Target", 7⟩ [] rfl rfl rfl rfl rfl rfl
     (by simp [classifiedBothMissing, pBothMissing]) rfl rfl⟩

/-- C8: for a placeholder Problem whose target key does not resolve in the
target map, the catalog emits exactly one candidate adding the placeholder
to the resolved target declaration: an (indexed) `insertProperty` edit when
the errorKind is the missing-index variant, otherwise an
`insertOptionalProperty` edit; its prime info is the target node with the
saved declaration attached and its other info is the placeholder node. -/
theorem c8_placeholder_insert (w : WhenContext) (p : Problem)
    (ps : List Problem) (layer : Layer) (rest : List Layer)
    (pt : PlaceholderTarget) (d : Decl) (ds : List Decl)
    (hcap : w.context.captured = false)
    (hp : w.problems = p :: ps)
    (hs : w.stack = layer :: rest)
    (hkc : placeholderKindCompatible w.context.errorType)
    (hpl : layer.sourceInfo.isPlaceholder = true)
    (hpt : w.context.placeholderInfo.placeholderTarget = some pt)
    (hlk : w.context.targetMap.lookup pt.key = none)
    (hdecl : w.context.cache.typeDecls pt.typeId = some (d :: ds)) :
    ∃ c, whenMismatchedOrMissingTypes w = some ⟨[c], []⟩ ∧
      c.nodeInfos = [{
        primeInfo := some { layer.targetInfo with
          declaredId := some (w.context.cache.saveNode d) },
        otherInfo := some w.context.placeholderInfo,
        type := if w.context.errorType = .missingIndex then .insertProperty
                else .insertOptionalProperty }] := by
  obtain ⟨probs, ctx, stk, sn, tn⟩ := w
  obtain ⟨cap, et, fn, sm0, tm, ph, cache⟩ := ctx
  simp only at hcap hp hs hkc hpt hlk hdecl
  subst hcap hp hs
  obtain ⟨h1, h2, h3⟩ := hkc
  by_cases hmi : et = .missingIndex
  · subst hmi
    refine ⟨⟨"Fix missing property?",
      s!"Add this index to {chalkGreen (declDisplayName d)} map",
      [{ primeInfo := some { layer.targetInfo with
           declaredId := some (cache.saveNode d) },
         otherInfo := some ph,
         type := .insertProperty }]⟩, ?_, ?_⟩
    · simp [whenMismatchedOrMissingTypes, hpl, hpt, hlk, hdecl]
    · simp
  · refine ⟨⟨"Fix missing property?",
      s!"Add optional property to {tn} {chalkGreen (declDisplayName d)} type",
      [{ primeInfo := some { layer.targetInfo with
           declaredId := some (cache.saveNode d) },
         otherInfo := some ph,
         type := .insertOptionalProperty }]⟩, ?_, ?_⟩
    · simp [whenMismatchedOrMissingTypes, hpl, hpt, hlk, hdecl, h1, h2, h3, hmi]
    · simp [hmi]

/-- A placeholder node fixture whose target key `k` is unresolved. -/
def phNode : NodeInfo := { nodeText := "ph", placeholderTarget := some ⟨"k", 9⟩ }

/-- A placeholder source node fixture. -/
def srcPlaceholder : NodeInfo := { nodeText := "s", isPlaceholder := true }

/-- A concrete catalog context for the unresolved-placeholder scenario. -/
def wPlaceholder : WhenContext :=
  { problems := [{}],
    context := { captured := false, errorType := .misc,
                 placeholderInfo := phNode, targetMap := [],
                 cache := cacheDummy },
    stack := [⟨srcPlaceholder, tgtNodeA⟩] }

/-- Witness for C8 at the concrete unresolved-placeholder context. -/
theorem c8_placeholder_insert_witness :
    placeholderKindCompatible wPlaceholder.context.errorType ∧
    ∃ c, whenMismatchedOrMissingTypes wPlaceholder = some ⟨[c], []⟩ ∧
      c.nodeInfos = [{
        primeInfo := some { tgtNodeA with
          declaredId := some (wPlaceholder.context.cache.saveNode
            ⟨some "Target", 9⟩) },
        otherInfo := some wPlaceholder.context.placeholderInfo,
        type := if wPlaceholder.context.errorType = .missingIndex
                then .insertProperty else .insertOptionalProperty }] :=
  ⟨by simp [placeholderKindCompatible, wPlaceholder],
   c8_placeholder_insert wPlaceholder {} [] ⟨srcPlaceholder, tgtNodeA⟩ []
     ⟨"k", 9⟩ ⟨some "Target", 9⟩ [] rfl rfl rfl
     (by simp [placeholderKindCompatible, wPlaceholder]) rfl rfl rfl rfl⟩

/-- Non-overlapping triples have distinct start offsets. -/
theorem tripleDisjoint_startPos_ne (a b : Triple) (h : tripleDisjoint a b) :
    a.startPos ≠ b.startPos := by
  rcases h with ⟨_, h2⟩ | ⟨_, h2⟩
  · exact Nat.ne_of_lt h2
  · exact (Nat.ne_of_lt h2).symm

/-- Sorting by start offset maps any two permuted pairwise non-overlapping
edit lists to the same sorted list: the start offsets are pairwise distinct,
so the sorted order is unique. -/
theorem sortTriples_eq_of_perm (l1 l2 : List Triple) (hperm : l1.Perm l2)
    (hd : l1.Pairwise tripleDisjoint) : sortTriples l1 = sortTriples l2 := by
  have hne1 : l1.Pairwise (fun a b => a.startPos ≠ b.startPos) :=
    hd.imp (fun {a b} h => tripleDisjoint_startPos_ne a b h)
  have hsymm : Symmetric (fun a b : Triple => a.startPos ≠ b.startPos) :=
    fun _ _ h => h.symm
  have hp1 : (sortTriples l1).Perm l1 := List.perm_insertionSort tripleLe l1
  have hp2 : (sortTriples l2).Perm l2 := List.perm_insertionSort tripleLe l2
  have hperm2 : (sortTriples l1).Perm (sortTriples l2) :=
    hp1.trans (hperm.trans hp2.symm)
  have hs1 : List.Sorted tripleLe (sortTriples l1) :=
    List.sorted_insertionSort tripleLe l1
  have hs2 : List.Sorted tripleLe (sortTriples l2) :=
    List.sorted_insertionSort tripleLe l2
  have hne1s : (sortTriples l1).Pairwise (fun a b => a.startPos ≠ b.startPos) :=
    (List.Perm.pairwise_iff (fun {x y} => @hsymm x y) hp1).mpr hne1
  have hne2s : (sortTriples l2).Pairwise (fun a b => a.startPos ≠ b.startPos) :=
    (List.Perm.pairwise_iff (fun {x y} => @hsymm x y) hperm2).mp hne1s
  have hlt1 : List.Sorted tripleLt (sortTriples l1) :=
    (List.Pairwise.and hs1 hne1s).imp
      (fun {a b} h => Nat.lt_of_le_of_ne h.1 h.2)
  have hlt2 : List.Sorted tripleLt (sortTriples l2) :=
    (List.Pairwise.and hs2 hne2s).imp
      (fun {a b} h => Nat.lt_of_le_of_ne h.1 h.2)
  exact List.eq_of_perm_of_sorted hperm2 hlt1 hlt2

/-- C4: the Patch Engine is order-independent — for any pairwise
non-overlapping set of resolved edits, applying them in any permutation of
their registration order yields byte-identical output text. -/
theorem c4_patch_order_independence (text : List Char) (l1 l2 : List Triple)
    (hperm : l1.Perm l2) (hd : l1.Pairwise tripleDisjoint) :
    applyEdits text l1 = applyEdits text l2 := by
  unfold applyEdits
  rw [sortTriples_eq_of_perm l1 l2 hperm hd]

/-- A first resolved edit fixture. -/
def tripleA : Triple := ⟨0, 1, ['X']⟩

/-- A second resolved edit fixture, disjoint from the first. -/
def tripleB : Triple := ⟨2, 3, ['Y']⟩

/-- Witness for C4: the two orders of the two disjoint edits patch the same. -/
theorem c4_patch_order_independence_witness :
    ([tripleA, tripleB] : List Triple).Perm [tripleB, tripleA] ∧
    applyEdits "abcd".toList [tripleA, tripleB] =
      applyEdits "abcd".toList [tripleB, tripleA] :=
  ⟨by decide,
   c4_patch_order_independence "abcd".toList [tripleA, tripleB]
     [tripleB, tripleA] (by decide) (by decide)⟩

/-- A two-file environment where both files yield a diagnostic whose closest
target starts at the same offset. -/
def envCross : HoundEnv :=
  { fileNames := ["a.ts", "b.ts"],
    fileText := fun _ => [],
    startToNode := fun _ s => some s,
    closestTargetStart := fun _ n => n,
    targetKindName := fun _ _ => "Identifier",
    nodeLink := fun f _ => f,
    findProblems := fun _ f _ => if f = "a.ts" then [42] else [43] }

/-- Two diagnostics at the same start offset in two different files. -/
def diagsCross : List Diagnostic :=
  [⟨2322, some "a.ts", some 5⟩, ⟨2322, some "b.ts", some 5⟩]

/-- C3 counterexample: the processed-set is keyed by offset alone, so the
second file's diagnostic at the same offset is skipped — only the first
file's problem batch is produced, not both. -/
theorem c3_crossfile_dedup_counterexample :
    (sniffFold envCross diagsCross).allProblems = [42] ∧
    (sniffFold envCross diagsCross).allProblems ≠ [42, 43] := by
  constructor
  · rfl
  · decide

/-- C3 amended: a normalized start offset is processed at most once per run
globally across all files — any further eligible diagnostic whose closest
target starts at an already-processed offset, in the same file or any other
file, contributes no problem and no missing-support entry. -/
theorem c3_offset_dedup_global (env : HoundEnv) (st : SniffState)
    (d : Diagnostic) (f : String) (s n : Nat)
    (hf : d.file = some f) (hmem : f ∈ env.fileNames)
    (hst : d.start = some s) (hs0 : s ≠ 0)
    (hn : env.startToNode f s = some n)
    (hcode : d.code ∉ ignoreTheseErrors)
    (hproc : env.closestTargetStart f n ∈ st.processedNodes) :
    (sniffStep env st d).allProblems = st.allProblems ∧
    (sniffStep env st d).missingSupport = st.missingSupport ∧
    (sniffStep env st d).processedNodes = st.processedNodes := by
  obtain ⟨code, file, start⟩ := d
  simp only at hf hst hcode
  subst hf hst
  unfold sniffStep
  simp [hmem, hs0, hn, hcode, hproc]

/-- A state in which offset 5 has already been processed. -/
def stProcessed5 : SniffState := ⟨["a.ts"], [5], [42], [], true, true⟩

/-- Witness for C3: with offset 5 already processed, a later diagnostic in
another file at offset 5 changes nothing. -/
theorem c3_offset_dedup_global_witness :
    (5 : Nat) ∈ stProcessed5.processedNodes ∧
    (sniffStep envCross stProcessed5 ⟨2322, some "b.ts", some 5⟩).allProblems
      = stProcessed5.allProblems ∧
    (sniffStep envCross stProcessed5 ⟨2322, some "b.ts", some 5⟩).missingSupport
      = stProcessed5.missingSupport ∧
    (sniffStep envCross stProcessed5 ⟨2322, some "b.ts", some 5⟩).processedNodes
      = stProcessed5.processedNodes :=
  ⟨by decide,
   c3_offset_dedup_global envCross stProcessed5 ⟨2322, some "b.ts", some 5⟩
     "b.ts" 5 5 rfl (by decide) rfl (by decide) rfl (by decide) (by decide)⟩

/-- A one-file environment whose diagnostics each yield one problem batch. -/
def envRun : HoundEnv :=
  { fileNames := ["a.ts"],
    fileText := fun _ => "let x: string = 1".toList,
    startToNode := fun _ s => some s,
    closestTargetStart := fun _ n => n,
    targetKindName := fun _ _ => "Identifier",
    nodeLink := fun f _ => f,
    findProblems := fun _ _ n => [n] }

/-- Five diagnostics at five distinct offsets, hence five problem batches. -/
def diagsFive : List Diagnostic :=
  [⟨2322, some "a.ts", some 1⟩, ⟨2322, some "a.ts", some 2⟩,
   ⟨2322, some "a.ts", some 3⟩, ⟨2322, some "a.ts", some 4⟩,
   ⟨2322, some "a.ts", some 5⟩]

/-- Scenario D's decisions: fixes selected on the first two problems, `Quit`
on the third. -/
def outsQuit : List Outcome :=
  [.selected [("a.ts", ⟨0, 1, ['A']⟩)], .selected [("a.ts", ⟨2, 3, ['B']⟩)],
   .quit]

/-- C1 counterexample (Scenario D): quitting on the third of five problems
after selecting fixes for the first two persists nothing at all — the
accumulated edits are discarded, not applied. -/
theorem c1_quit_discards_edits_counterexample :
    (startFixingRun envRun diagsFive outsQuit).persisted = none ∧
    (resolutionLoop (sniffFold envRun diagsFive).allProblems.length
      outsQuit).1 ≠ [] := by
  constructor
  · rfl
  · decide

/-- C1 amended: a user `Quit` stops processing of the remaining problems and
makes the run return immediately — the patch phase is skipped, so no edit
accumulated from earlier selections is applied or persisted, and nothing is
reported. -/
theorem c1_quit_skips_apply (env : HoundEnv) (diags : List Diagnostic)
    (outs : List Outcome)
    (hq : (resolutionLoop (sniffFold env diags).allProblems.length outs).2
      = true) :
    (startFixingRun env diags outs).persisted = none ∧
    (startFixingRun env diags outs).reported = [] := by
  unfold startFixingRun
  simp [hq]

/-- Witness for C1 at the Scenario D fixture. -/
theorem c1_quit_skips_apply_witness :
    (resolutionLoop (sniffFold envRun diagsFive).allProblems.length
      outsQuit).2 = true ∧
    (startFixingRun envRun diagsFive outsQuit).persisted = none ∧
    (startFixingRun envRun diagsFive outsQuit).reported = [] :=
  ⟨by decide, c1_quit_skips_apply envRun diagsFive outsQuit (by decide)⟩

/-- An environment where code 9999 is unsupported and other codes yield one
problem batch. -/
def envC9 : HoundEnv :=
  { fileNames := ["a.ts"],
    fileText := fun _ => [],
    startToNode := fun _ s => some s,
    closestTargetStart := fun _ n => n,
    targetKindName := fun _ _ => "Identifier",
    nodeLink := fun f _ => f,
    findProblems := fun code _ n => if code = 9999 then [] else [n] }

/-- An unsupported diagnostic followed by a supported one. -/
def diagsC9 : List Diagnostic :=
  [⟨9999, some "a.ts", some 1⟩, ⟨2322, some "a.ts", some 2⟩]

/-- C9 counterexample: the run records a missing-support entry, but quitting
on the (only) problem ends the run before the unsupported list is surfaced —
it is silently dropped on a `Quit` run. -/
theorem c9_quit_hides_missing_support_counterexample :
    (sniffFold envC9 diagsC9).missingSupport ≠ [] ∧
    (startFixingRun envC9 diagsC9 [Outcome.quit]).reported = [] := by
  constructor
  · decide
  · rfl

/-- C9 amended: an eligible diagnostic that classifies to no problem is
recorded as a missing-support descriptor naming its code, node kind, and
offset (never silently dropped at classification time), and the recorded
list is surfaced at run end whenever the run is not ended by `Quit`; a
`Quit` returns before the report. -/
theorem c9_unsupported_recorded_and_reported (env : HoundEnv)
    (st : SniffState) (d : Diagnostic) (f : String) (s n : Nat)
    (hf : d.file = some f) (hmem : f ∈ env.fileNames)
    (hst : d.start = some s) (hs0 : s ≠ 0)
    (hn : env.startToNode f s = some n)
    (hcode : d.code ∉ ignoreTheseErrors)
    (hproc : env.closestTargetStart f n ∉ st.processedNodes)
    (hfp : env.findProblems d.code f n = []) :
    ((sniffStep env st d).missingSupport = st.missingSupport ++
        [supportMsg d.code (env.targetKindName f n)
          (env.closestTargetStart f n),
         env.nodeLink f n ++ "\n"] ∧
     (sniffStep env st d).allProblems = st.allProblems) ∧
    ∀ diags outs,
      (resolutionLoop (sniffFold env diags).allProblems.length outs).2
        = false →
      (startFixingRun env diags outs).reported
        = (sniffFold env diags).missingSupport := by
  constructor
  · obtain ⟨code, file, start⟩ := d
    simp only at hf hst hcode hfp
    subst hf hst
    unfold sniffStep
    simp [hmem, hs0, hn, hcode, hproc, hfp]
  · intro diags outs hq
    unfold startFixingRun
    simp [hq]

/-- Witness for C9: the unsupported diagnostic is recorded from the empty
state, and a quit-free run reports the recorded list. -/
theorem c9_unsupported_recorded_and_reported_witness :
    envC9.findProblems 9999 "a.ts" 1 = [] ∧
    ((sniffStep envC9 initSniffState ⟨9999, some "a.ts", some 1⟩).missingSupport
        = initSniffState.missingSupport ++
          [supportMsg 9999 (envC9.targetKindName "a.ts" 1)
            (envC9.closestTargetStart "a.ts" 1),
           envC9.nodeLink "a.ts" 1 ++ "\n"] ∧
     (sniffStep envC9 initSniffState ⟨9999, some "a.ts", some 1⟩).allProblems
        = initSniffState.allProblems) ∧
    (startFixingRun envC9 diagsC9 [Outcome.skipped]).reported
      = (sniffFold envC9 diagsC9).missingSupport :=
  ⟨rfl,
   (c9_unsupported_recorded_and_reported envC9 initSniffState
     ⟨9999, some "a.ts", some 1⟩ "a.ts" 1 1 rfl (by decide) rfl (by decide)
     rfl (by decide) (by decide) rfl).1,
   (c9_unsupported_recorded_and_reported envC9 initSniffState
     ⟨9999, some "a.ts", some 1⟩ "a.ts" 1 1 rfl (by decide) rfl (by decide)
     rfl (by decide) (by decide) rfl).2 diagsC9 [Outcome.skipped] (by decide)⟩
